import Mathlib

/-!
Verification of the loan-app balance/ledger engine (server.js).

The engine is embedded shallowly: amounts are rationals, the JS coercion
`Number(x) || 0` is modelled on a small JS-number type with NaN, dates are
abstracted to a month index plus day of month (the day-overflow spill of
JS `setMonth` into a shorter month is not modelled; the spec defers to the
"standard month-overflow behavior of the underlying date arithmetic").
Each HTTP mutation branch of `app.put("/api/loans")` becomes a pure
function from the borrower record and the request body to the updated
borrower record (or an error message for rejected payments).
-/

namespace LoanApp

/-- A JavaScript numeric input: either a finite number or NaN
(e.g. `Number(undefined)` or `Number("abc")`). -/
inductive JSNum where
  | fin (q : ℚ)
  | nan
deriving Repr, DecidableEq

/-- JS `Number(x) || 0`: NaN (falsy) coerces to 0, a finite number is kept
(0 maps to 0, which is the same value). -/
def numOrZero : JSNum → ℚ
  | .fin q => q
  | .nan => 0

/-- A calendar date, abstracted to a linear month index (year * 12 + month)
plus a day of month.  `setMonth(getMonth() + k)` adds `k` to the month
index. -/
structure JSDate where
  monthIndex : ℤ
  dayOfMonth : ℕ
deriving Repr, DecidableEq

/-- JS `d.setMonth(d.getMonth() + k)`: advance by `k` calendar months. -/
def JSDate.addMonths (d : JSDate) (k : ℤ) : JSDate :=
  { d with monthIndex := d.monthIndex + k }

/-- JS `x || dflt` for an optional string: the default is used when the
value is absent or the empty string (falsy). -/
def orDefault (s : Option String) (dflt : String) : String :=
  match s with
  | some t => if t = "" then dflt else t
  | none => dflt

/-- One recorded payment (`paymentRecord` in server.js). -/
structure PaymentRecord where
  amount : ℚ
  date : JSDate
  note : String
deriving Repr, DecidableEq

/-- One recorded penalty (`penaltyRecord` in server.js). -/
structure PenaltyRecord where
  amount : ℚ
  reason : String
  date : JSDate
  type : String
deriving Repr, DecidableEq

/-- The `lastAdvancePayment` snapshot stored by the rollforward branch. -/
structure AdvancePaymentInfo where
  amount : ℚ
  monthsCovered : ℤ
  date : JSDate
  originalDueDate : JSDate
  newDueDate : JSDate
deriving Repr, DecidableEq

/-- A borrower record as stored by server.js. -/
structure Borrower where
  name : String
  contact : String
  address : String
  loanAmount : ℚ
  term : ℚ
  interestRate : ℚ
  interestType : String
  nextDueDate : Option JSDate
  monthlyPayment : ℚ
  createdAt : JSDate
  payments : List PaymentRecord
  penalties : List PenaltyRecord
  totalPenalties : ℚ
  remainingBalance : ℚ
  lastAdvancePayment : Option AdvancePaymentInfo
deriving Repr, DecidableEq

/-- `(borrower.payments || []).reduce((sum, p) => sum + (p.amount || 0), 0)`. -/
def totalPaymentsOf (ps : List PaymentRecord) : ℚ :=
  ps.foldl (fun s p => s + p.amount) 0

/-- `(borrower.penalties || []).reduce((sum, p) => sum + (p.amount || 0), 0)`. -/
def totalPenaltiesOf (ps : List PenaltyRecord) : ℚ :=
  ps.foldl (fun s p => s + p.amount) 0

/-- The flat-interest formula shared verbatim by all four handler branches:
`monthlyInterestRate` is the rate, divided by 12 when the period is
`annually`; interest is `loanAmount * (monthlyInterestRate / 100) * term`. -/
def totalInterestCalc (loanAmount interestRate term : ℚ) (interestType : String) : ℚ :=
  let monthlyInterestRate := if interestType = "annually" then interestRate / 12 else interestRate
  let monthlyInterest := loanAmount * (monthlyInterestRate / 100)
  monthlyInterest * term

/-- `calculateInitialBalance` (server.js lines 133-150): returns the loan
amount unchanged in the degenerate case, else principal plus flat
interest. -/
def calculateInitialBalance (loanAmount interestRate term : ℚ) (interestType : String) : ℚ :=
  if loanAmount ≤ 0 ∨ term ≤ 0 then loanAmount
  else loanAmount + totalInterestCalc loanAmount interestRate term interestType

/-- The interest recomputation used by the payment, penalty and
borrower-update branches: guarded by JS truthiness of `interestRate` and
`term` (both nonzero), otherwise 0. -/
def mutationInterest (loanAmount interestRate term : ℚ) (interestType : String) : ℚ :=
  if interestRate ≠ 0 ∧ term ≠ 0 then totalInterestCalc loanAmount interestRate term interestType
  else 0

/-- The borrower object built by `POST /api/loans` (lines 152-167); the
string and date fields are taken after their `||` defaulting, the numeric
fields after `Number(x) || 0` coercion. -/
def createBorrower (name contact address : String) (loanAmount term interestRate : ℚ)
    (interestType : String) (nextDueDate : Option JSDate) (monthlyPayment : ℚ)
    (now : JSDate) : Borrower :=
  { name := name
    contact := contact
    address := address
    loanAmount := loanAmount
    term := term
    interestRate := interestRate
    interestType := interestType
    nextDueDate := nextDueDate
    monthlyPayment := monthlyPayment
    createdAt := now
    payments := []
    penalties := []
    totalPenalties := 0
    remainingBalance := calculateInitialBalance loanAmount interestRate term interestType
    lastAdvancePayment := none }

/-- The `body.payment` object of a `PUT /api/loans` request. -/
structure PaymentBody where
  amount : JSNum
  date : Option JSDate
  note : Option String
  updateDueDate : Bool
deriving Repr, DecidableEq

/-- The `paymentRecord` built at lines 238-242. -/
def mkPaymentRecord (pb : PaymentBody) (now : JSDate) : PaymentRecord :=
  { amount := numOrZero pb.amount
    date := pb.date.getD now
    note := orDefault pb.note "" }

/-- The payment branch's new balance (line 272):
`Math.max(loanAmount + totalInterest + totalPenalties - totalPayments, 0)`
where `totalPayments` already includes the incoming amount. -/
def paymentNewBalance (b : Borrower) (amount : ℚ) : ℚ :=
  max (b.loanAmount + mutationInterest b.loanAmount b.interestRate b.term b.interestType
        + b.totalPenalties - (totalPaymentsOf b.payments + amount)) 0

/-- The state update performed by an accepted payment (lines 257-331):
append the record, store the recomputed balance, and, when requested and
applicable, roll the due date forward by the number of whole months
covered. -/
def applyPayment (b : Borrower) (pr : PaymentRecord) (updateDueDate : Bool) : Borrower :=
  let newBalance := paymentNewBalance b pr.amount
  let base := { b with payments := b.payments ++ [pr], remainingBalance := newBalance }
  if updateDueDate ∧ b.monthlyPayment ≠ 0 ∧ 0 < pr.amount then
    match b.nextDueDate with
    | some currentDueDate =>
      let monthsCovered : ℤ := ⌊pr.amount / b.monthlyPayment⌋
      if 1 ≤ monthsCovered then
        let nd := currentDueDate.addMonths monthsCovered
        { base with
            nextDueDate := some nd
            lastAdvancePayment := some
              { amount := pr.amount
                monthsCovered := monthsCovered
                date := pr.date
                originalDueDate := currentDueDate
                newDueDate := nd } }
      else base
    | none => base
  else base

/-- The `body.payment` branch of `PUT /api/loans` (lines 224-334).
Validation mirrors the source: `!amount || amount <= 0` rejects first
(NaN has already been coerced to 0 by `Number(x) || 0`, so the later
`isNaN` check is unreachable), then the overflow check.  On rejection the
handler returns 400 and stores nothing. -/
def recordPayment (b : Borrower) (pb : PaymentBody) (now : JSDate) : Except String Borrower :=
  let pr := mkPaymentRecord pb now
  if pr.amount = 0 ∨ pr.amount ≤ 0 then
    .error "Payment amount must be greater than zero."
  else if pr.amount > 999999999 then
    .error "Payment amount is too large."
  else
    .ok (applyPayment b pr pb.updateDueDate)

/-- The `body.penalty` object of a `PUT /api/loans` request.  The record's
date is server-assigned (`new Date()`), so the body carries no date. -/
structure PenaltyBody where
  amount : JSNum
  reason : Option String
deriving Repr, DecidableEq

/-- The `penaltyRecord` built at lines 350-355. -/
def mkPenaltyRecord (pb : PenaltyBody) (now : JSDate) : PenaltyRecord :=
  { amount := numOrZero pb.amount
    reason := orDefault pb.reason "Penalty"
    date := now
    type := "penalty" }

/-- The penalty branch's balance before the store-boundary clamp
(line 375): `loanAmount + totalInterest + newTotalPenalties -
totalPayments`, not floored here. -/
def penaltyRawBalance (b : Borrower) (newTotalPenalties : ℚ) : ℚ :=
  b.loanAmount + mutationInterest b.loanAmount b.interestRate b.term b.interestType
    + newTotalPenalties - totalPaymentsOf b.payments

/-- The `body.penalty` branch of `PUT /api/loans` (lines 336-408): no
amount validation; appends the record, sets `totalPenalties` to the
existing list sum plus the new amount, and stores
`Math.max(newBalance, 0)`. -/
def recordPenalty (b : Borrower) (pb : PenaltyBody) (now : JSDate) : Borrower :=
  let pr := mkPenaltyRecord pb now
  let newTotalPenalties := totalPenaltiesOf b.penalties + pr.amount
  let newBalance := penaltyRawBalance b newTotalPenalties
  { b with
      penalties := b.penalties ++ [pr]
      remainingBalance := max newBalance 0
      totalPenalties := newTotalPenalties }

/-- The `body.borrowerUpdate` object of a `PUT /api/loans` request:
every field optional; string fields are applied only when truthy, numeric
fields whenever present (`!== undefined`). -/
structure UpdateBody where
  name : Option String
  contact : Option String
  address : Option String
  loanAmount : Option ℚ
  term : Option ℚ
  interestRate : Option ℚ
  interestType : Option String
  nextDueDate : Option JSDate
  monthlyPayment : Option ℚ
deriving Repr, DecidableEq

/-- An update body with no fields supplied. -/
def emptyUpdate : UpdateBody :=
  { name := none, contact := none, address := none, loanAmount := none, term := none
    interestRate := none, interestType := none, nextDueDate := none, monthlyPayment := none }

/-- JS `x ? x : old` merging for the truthy-guarded string fields. -/
def strMerge (x : Option String) (old : String) : String :=
  match x with
  | some s => if s = "" then old else s
  | none => old

/-- The balance-recomputation trigger of lines 427-430: any of
`loanAmount`, `term`, `interestRate` supplied, or `interestType` truthy. -/
def recomputeTriggered (u : UpdateBody) : Bool :=
  u.loanAmount.isSome || u.term.isSome || u.interestRate.isSome ||
    (match u.interestType with
     | some s => !(s == "")
     | none => false)

/-- The `body.borrowerUpdate` branch of `PUT /api/loans` (lines 411-460):
merge the supplied fields over the current scalars, and when a loan term
changed, recompute `remainingBalance` from the merged terms with the
unchanged payment history and `totalPenalties` field. -/
def borrowerUpdate (b : Borrower) (u : UpdateBody) : Borrower :=
  let merged := { b with
    name := strMerge u.name b.name
    contact := strMerge u.contact b.contact
    address := strMerge u.address b.address
    loanAmount := u.loanAmount.getD b.loanAmount
    term := u.term.getD b.term
    interestRate := u.interestRate.getD b.interestRate
    interestType := strMerge u.interestType b.interestType
    nextDueDate := match u.nextDueDate with
      | some d => some d
      | none => b.nextDueDate
    monthlyPayment := u.monthlyPayment.getD b.monthlyPayment }
  if recomputeTriggered u then
    let newBalance :=
      max (merged.loanAmount
        + mutationInterest merged.loanAmount merged.interestRate merged.term merged.interestType
        + b.totalPenalties - totalPaymentsOf b.payments) 0
    { merged with remainingBalance := newBalance }
  else merged

/-! ### The spec's factored interest operations

The specification describes the initial-balance computation as a pair of
operations `totalInterest` and `initialBalance = principal +
totalInterest(...)`.  These two definitions follow the spec's words (not
the source) so that the factorization can be compared against the single
source function `calculateInitialBalance`. -/

/-- Follows the spec's words for `totalInterest`: "If `principal <= 0` or
`termMonths <= 0`: returns `principal` unchanged.  Otherwise `monthlyRate
= interestPeriod == annually ? interestRate / 12 : interestRate`;
`monthlyInterestAmount = principal * (monthlyRate / 100)`; returns
`monthlyInterestAmount * termMonths`." -/
def totalInterestSpec (principal interestRate termMonths : ℚ) (interestPeriod : String) : ℚ :=
  if principal ≤ 0 ∨ termMonths ≤ 0 then principal
  else principal * ((if interestPeriod = "annually" then interestRate / 12 else interestRate) / 100)
    * termMonths

/-- Follows the spec's words for `initialBalance`: "Returns `principal +
totalInterest(...)`." -/
def initialBalanceSpec (principal interestRate termMonths : ℚ) (interestPeriod : String) : ℚ :=
  principal + totalInterestSpec principal interestRate termMonths interestPeriod

/-! ### Sample data used by the concrete test-vector conjuncts -/

/-- A fixed recording date (month index and day of month). -/
def sampleDate : JSDate := ⟨24307, 15⟩

/-- A fixed next-due date. -/
def dueDate0 : JSDate := ⟨24310, 1⟩

/-- A loan with balance 1000, no interest terms, no payments and no
penalties. -/
def loanBal1000 : Borrower :=
  createBorrower "Casey Lee" "0917-555-0101" "12 Main St" 1000 0 0 "monthly" none 0 sampleDate

/-- A loan with `monthlyPayment = 200` and a next due date set. -/
def loanDue200 : Borrower :=
  createBorrower "Dana Cruz" "0917-555-0102" "34 Oak St" 1000 0 0 "monthly" (some dueDate0) 200
    sampleDate

/-- A plain payment body (no due-date advance requested). -/
def payBody (q : ℚ) : PaymentBody := ⟨JSNum.fin q, none, none, false⟩

/-- A payment body requesting the due-date advance. -/
def payAdvanceBody (q : ℚ) : PaymentBody := ⟨JSNum.fin q, none, none, true⟩

/-! ### Helper lemmas about the engine operations -/

theorem totalPaymentsOf_append (l : List PaymentRecord) (p : PaymentRecord) :
    totalPaymentsOf (l ++ [p]) = totalPaymentsOf l + p.amount := by
  simp [totalPaymentsOf, List.foldl_append]

theorem totalPenaltiesOf_append (l : List PenaltyRecord) (p : PenaltyRecord) :
    totalPenaltiesOf (l ++ [p]) = totalPenaltiesOf l + p.amount := by
  simp [totalPenaltiesOf, List.foldl_append]

theorem mkPaymentRecord_amount (pb : PaymentBody) (now : JSDate) :
    (mkPaymentRecord pb now).amount = numOrZero pb.amount := rfl

/-- An in-range positive amount passes both validation checks, and the
handler stores exactly the `applyPayment` update. -/
theorem recordPayment_eq_ok (b : Borrower) (pb : PaymentBody) (now : JSDate)
    (h1 : 0 < numOrZero pb.amount) (h2 : numOrZero pb.amount ≤ 999999999) :
    recordPayment b pb now = .ok (applyPayment b (mkPaymentRecord pb now) pb.updateDueDate) := by
  rw [recordPayment]
  rw [if_neg (by rw [mkPaymentRecord_amount]; push_neg; exact ⟨h1.ne', h1⟩)]
  rw [if_neg (by rw [mkPaymentRecord_amount]; exact not_lt.mpr h2)]

/-- Conversely, an accepted payment had an in-range positive amount and
the result is the `applyPayment` update. -/
theorem recordPayment_ok_inv (b : Borrower) (pb : PaymentBody) (now : JSDate) (r : Borrower)
    (h : recordPayment b pb now = .ok r) :
    0 < numOrZero pb.amount ∧ numOrZero pb.amount ≤ 999999999 ∧
      r = applyPayment b (mkPaymentRecord pb now) pb.updateDueDate := by
  rw [recordPayment] at h
  by_cases hv1 : (mkPaymentRecord pb now).amount = 0 ∨ (mkPaymentRecord pb now).amount ≤ 0
  · rw [if_pos hv1] at h
    exact absurd h (by simp)
  · rw [if_neg hv1] at h
    by_cases hv2 : (mkPaymentRecord pb now).amount > 999999999
    · rw [if_pos hv2] at h
      exact absurd h (by simp)
    · rw [if_neg hv2] at h
      push_neg at hv1
      exact ⟨hv1.2, not_lt.mp hv2, (Except.ok.inj h).symm⟩

/-- The fields of an `applyPayment` update that do not depend on the
rollforward branch. -/
theorem applyPayment_fixed (b : Borrower) (pr : PaymentRecord) (u : Bool) :
    (applyPayment b pr u).payments = b.payments ++ [pr] ∧
    (applyPayment b pr u).remainingBalance = paymentNewBalance b pr.amount ∧
    (applyPayment b pr u).penalties = b.penalties ∧
    (applyPayment b pr u).totalPenalties = b.totalPenalties ∧
    (applyPayment b pr u).loanAmount = b.loanAmount ∧
    (applyPayment b pr u).term = b.term ∧
    (applyPayment b pr u).interestRate = b.interestRate ∧
    (applyPayment b pr u).interestType = b.interestType ∧
    (applyPayment b pr u).monthlyPayment = b.monthlyPayment := by
  simp only [applyPayment]
  cases b.nextDueDate <;> split_ifs <;> simp

/-- When the rollforward guard holds and the payment covers at least one
whole month, the due date advances and the snapshot is stored. -/
theorem applyPayment_advance (b : Borrower) (pr : PaymentRecord) (d : JSDate)
    (hmp : b.monthlyPayment ≠ 0) (hnd : b.nextDueDate = some d) (ha : 0 < pr.amount)
    (hmc : 1 ≤ ⌊pr.amount / b.monthlyPayment⌋) :
    (applyPayment b pr true).nextDueDate = some (d.addMonths ⌊pr.amount / b.monthlyPayment⌋) ∧
    (applyPayment b pr true).lastAdvancePayment = some
      { amount := pr.amount
        monthsCovered := ⌊pr.amount / b.monthlyPayment⌋
        date := pr.date
        originalDueDate := d
        newDueDate := d.addMonths ⌊pr.amount / b.monthlyPayment⌋ } := by
  simp only [applyPayment, hnd]
  rw [if_pos ⟨by simp, hmp, ha⟩, if_pos hmc]
  exact ⟨rfl, rfl⟩

/-- When the payment covers no whole month, the due date and the advance
snapshot are untouched. -/
theorem applyPayment_noAdvance (b : Borrower) (pr : PaymentRecord) (u : Bool)
    (hmc : ⌊pr.amount / b.monthlyPayment⌋ = 0) :
    (applyPayment b pr u).nextDueDate = b.nextDueDate ∧
    (applyPayment b pr u).lastAdvancePayment = b.lastAdvancePayment := by
  simp only [applyPayment]
  cases b.nextDueDate with
  | none => split_ifs <;> exact ⟨rfl, rfl⟩
  | some d =>
    split_ifs with h1 h2
    · rw [hmc] at h2
      norm_num at h2
    · exact ⟨rfl, rfl⟩
    · exact ⟨rfl, rfl⟩

/-- All fields of a `recordPenalty` update. -/
theorem recordPenalty_fields (b : Borrower) (pb : PenaltyBody) (now : JSDate) :
    (recordPenalty b pb now).penalties = b.penalties ++ [mkPenaltyRecord pb now] ∧
    (recordPenalty b pb now).totalPenalties = totalPenaltiesOf b.penalties + numOrZero pb.amount ∧
    (recordPenalty b pb now).remainingBalance =
      max (penaltyRawBalance b (totalPenaltiesOf b.penalties + numOrZero pb.amount)) 0 ∧
    (recordPenalty b pb now).payments = b.payments ∧
    (recordPenalty b pb now).loanAmount = b.loanAmount ∧
    (recordPenalty b pb now).nextDueDate = b.nextDueDate :=
  ⟨rfl, rfl, rfl, rfl, rfl, rfl⟩

/-- The merge semantics of `borrowerUpdate` for the fields that do not
depend on the recompute trigger. -/
theorem borrowerUpdate_fields (b : Borrower) (u : UpdateBody) :
    (borrowerUpdate b u).payments = b.payments ∧
    (borrowerUpdate b u).penalties = b.penalties ∧
    (borrowerUpdate b u).totalPenalties = b.totalPenalties ∧
    (borrowerUpdate b u).loanAmount = u.loanAmount.getD b.loanAmount ∧
    (borrowerUpdate b u).term = u.term.getD b.term ∧
    (borrowerUpdate b u).interestRate = u.interestRate.getD b.interestRate ∧
    (borrowerUpdate b u).interestType = strMerge u.interestType b.interestType ∧
    (borrowerUpdate b u).monthlyPayment = u.monthlyPayment.getD b.monthlyPayment ∧
    (borrowerUpdate b u).name = strMerge u.name b.name := by
  simp only [borrowerUpdate]
  split_ifs <;> simp

/-- When a loan term changed, the balance is recomputed from the merged
terms and the unchanged history. -/
theorem borrowerUpdate_balance_triggered (b : Borrower) (u : UpdateBody)
    (h : recomputeTriggered u = true) :
    (borrowerUpdate b u).remainingBalance =
      max ((u.loanAmount.getD b.loanAmount)
        + mutationInterest (u.loanAmount.getD b.loanAmount) (u.interestRate.getD b.interestRate)
            (u.term.getD b.term) (strMerge u.interestType b.interestType)
        + b.totalPenalties - totalPaymentsOf b.payments) 0 := by
  simp only [borrowerUpdate]
  rw [if_pos h]

/-- When no loan term changed, the stored balance is not recomputed. -/
theorem borrowerUpdate_balance_untriggered (b : Borrower) (u : UpdateBody)
    (h : recomputeTriggered u = false) :
    (borrowerUpdate b u).remainingBalance = b.remainingBalance := by
  simp only [borrowerUpdate]
  rw [if_neg (by simp [h])]

/-- An update body with no fields supplied is a no-op. -/
theorem borrowerUpdate_empty (b : Borrower) : borrowerUpdate b emptyUpdate = b := rfl

/-- Unfolding of the shared flat-interest formula. -/
theorem totalInterestCalc_eq (la r t : ℚ) (ty : String) :
    totalInterestCalc la r t ty = la * ((if ty = "annually" then r / 12 else r) / 100) * t := rfl

/-! ### Claims -/

/-- C1: for every loan whose principal, termMonths and interestRate are
non-negative, after every accepted engine operation the stored
`remainingBalance` is non-negative: loan creation yields a non-negative
balance, and recordPayment, recordPenalty and the borrower-update
recomputation keep it non-negative. -/
theorem C1_remainingBalance_nonneg :
    (∀ (name contact address : String) (la t r : ℚ) (ty : String) (nd : Option JSDate)
        (mp : ℚ) (now : JSDate), 0 ≤ la → 0 ≤ t → 0 ≤ r →
        0 ≤ (createBorrower name contact address la t r ty nd mp now).remainingBalance) ∧
    (∀ (b : Borrower) (pb : PaymentBody) (now : JSDate) (r : Borrower),
        recordPayment b pb now = Except.ok r → 0 ≤ r.remainingBalance) ∧
    (∀ (b : Borrower) (pb : PenaltyBody) (now : JSDate),
        0 ≤ (recordPenalty b pb now).remainingBalance) ∧
    (∀ (b : Borrower) (u : UpdateBody),
        0 ≤ b.remainingBalance → 0 ≤ (borrowerUpdate b u).remainingBalance) := by
  refine ⟨?_, ?_, ?_, ?_⟩
  · intro name contact address la t r ty nd mp now hla ht hr
    show 0 ≤ calculateInitialBalance la r t ty
    rw [calculateInitialBalance]
    split_ifs with hdeg
    · exact hla
    · have hmr : 0 ≤ (if ty = "annually" then r / 12 else r) := by
        split_ifs
        · exact div_nonneg hr (by norm_num)
        · exact hr
      have hI : 0 ≤ totalInterestCalc la r t ty := by
        rw [totalInterestCalc_eq]
        exact mul_nonneg (mul_nonneg hla (div_nonneg hmr (by norm_num))) ht
      linarith
  · intro b pb now r h
    obtain ⟨-, -, hr⟩ := recordPayment_ok_inv b pb now r h
    rw [hr, (applyPayment_fixed b (mkPaymentRecord pb now) pb.updateDueDate).2.1,
      paymentNewBalance]
    exact le_max_right _ _
  · intro b pb now
    rw [(recordPenalty_fields b pb now).2.2.1]
    exact le_max_right _ _
  · intro b u hb
    cases h : recomputeTriggered u
    · rw [borrowerUpdate_balance_untriggered b u h]
      exact hb
    · rw [borrowerUpdate_balance_triggered b u h]
      exact le_max_right _ _

/-- Witness for C1 at a concrete loan with non-negative terms. -/
theorem C1_witness :
    0 ≤ (createBorrower "Ana" "c" "a" 1000 12 5 "monthly" none 0 sampleDate).remainingBalance :=
  C1_remainingBalance_nonneg.1 "Ana" "c" "a" 1000 12 5 "monthly" none 0 sampleDate
    (by norm_num) (by norm_num) (by norm_num)

/-- C3: for positive principal and term the initial balance is principal
plus flat interest `principal * (monthlyRate / 100) * termMonths`, with
the rate divided by 12 only for the annual period; in particular
`initialBalance(10000, 5, 12, monthly) = 16000` (interest 6000) and the
annual-period interest for `P=1000, R=12, T=6` is 60. -/
theorem C3_interest_formula :
    (∀ (P R T : ℚ) (ty : String), 0 < P → 0 < T →
        calculateInitialBalance P R T ty
          = P + P * ((if ty = "annually" then R / 12 else R) / 100) * T) ∧
    calculateInitialBalance 10000 5 12 "monthly" = 16000 ∧
    totalInterestCalc 10000 5 12 "monthly" = 6000 ∧
    totalInterestCalc 1000 12 6 "annually" = 60 := by
  have hgen : ∀ (P R T : ℚ) (ty : String), 0 < P → 0 < T →
      calculateInitialBalance P R T ty
        = P + P * ((if ty = "annually" then R / 12 else R) / 100) * T := by
    intro P R T ty hP hT
    rw [calculateInitialBalance, if_neg (by push_neg; exact ⟨hP, hT⟩), totalInterestCalc_eq]
  refine ⟨hgen, ?_, ?_, ?_⟩
  · rw [hgen 10000 5 12 "monthly" (by norm_num) (by norm_num),
      if_neg (show ¬ ("monthly" = "annually") by decide)]
    norm_num
  · rw [totalInterestCalc_eq, if_neg (show ¬ ("monthly" = "annually") by decide)]
    norm_num
  · rw [totalInterestCalc_eq, if_pos rfl]
    norm_num

/-- Witness for C3 at the documented concrete terms. -/
theorem C3_witness :
    calculateInitialBalance 10000 5 12 "monthly"
      = 10000 + 10000 * ((if "monthly" = "annually" then (5 : ℚ) / 12 else 5) / 100) * 12 :=
  C3_interest_formula.1 10000 5 12 "monthly" (by norm_num) (by norm_num)

/-- C4 counterexample: the spec's factorization `initialBalance =
principal + totalInterest(...)` with the degenerate `totalInterest`
returning the principal would store 1000 for `P=500, R=10, T=0`, but the
code stores `calculateInitialBalance 500 10 0 = 500` as the created
loan's balance. -/
theorem C4_counterexample :
    totalInterestSpec 500 10 0 "monthly" = 500 ∧
    initialBalanceSpec 500 10 0 "monthly" = 1000 ∧
    calculateInitialBalance 500 10 0 "monthly" = 500 ∧
    (createBorrower "Casey Lee" "0917-555-0101" "12 Main St" 500 0 10 "monthly" none 0
        sampleDate).remainingBalance = 500 ∧
    initialBalanceSpec 500 10 0 "monthly"
      ≠ (createBorrower "Casey Lee" "0917-555-0101" "12 Main St" 500 0 10 "monthly" none 0
          sampleDate).remainingBalance := by
  have h1 : totalInterestSpec 500 10 0 "monthly" = 500 := by
    rw [totalInterestSpec, if_pos (by norm_num)]
  have h2 : initialBalanceSpec 500 10 0 "monthly" = 1000 := by
    rw [initialBalanceSpec, h1]
    norm_num
  have h3 : calculateInitialBalance 500 10 0 "monthly" = 500 := by
    rw [calculateInitialBalance, if_pos (by norm_num)]
  have h4 : (createBorrower "Casey Lee" "0917-555-0101" "12 Main St" 500 0 10 "monthly" none 0
      sampleDate).remainingBalance = 500 := h3
  refine ⟨h1, h2, h3, h4, ?_⟩
  rw [h2, h4]
  norm_num

/-- C4 (amended): whenever principal <= 0 or termMonths <= 0 the
initial-balance computation returns the principal unchanged (500 for
P=500, R=10, T=0 — not 0, and not principal plus a principal-sized
"interest"); for positive principal and term it returns principal plus
flat interest; in every case the value is the created loan's stored
`remainingBalance`. -/
theorem C4_amended_degenerate_alias :
    (∀ (P R T : ℚ) (ty : String), P ≤ 0 ∨ T ≤ 0 → calculateInitialBalance P R T ty = P) ∧
    (∀ (P R T : ℚ) (ty : String), 0 < P → 0 < T →
        calculateInitialBalance P R T ty = P + totalInterestCalc P R T ty) ∧
    calculateInitialBalance 500 10 0 "monthly" = 500 ∧
    (∀ (name contact address : String) (la t r : ℚ) (ty : String) (nd : Option JSDate)
        (mp : ℚ) (now : JSDate),
        (createBorrower name contact address la t r ty nd mp now).remainingBalance
          = calculateInitialBalance la r t ty) := by
  refine ⟨?_, ?_, ?_, ?_⟩
  · intro P R T ty h
    rw [calculateInitialBalance, if_pos h]
  · intro P R T ty hP hT
    rw [calculateInitialBalance, if_neg (by push_neg; exact ⟨hP, hT⟩)]
  · rw [calculateInitialBalance, if_pos (by norm_num)]
  · intro name contact address la t r ty nd mp now
    rfl

/-- Witness for the amended C4 at the degenerate input. -/
theorem C4_witness : calculateInitialBalance 500 10 0 "annually" = 500 :=
  C4_amended_degenerate_alias.1 500 10 0 "annually" (Or.inr (by norm_num))

/-- C2: an accepted payment of amount `a` appends exactly one
`PaymentRecord` and stores `remainingBalance = max(principal +
totalInterest + totalPenalties - (sum of prior payments + a), 0)`; in
particular a 1000 payment against a loan with balance 1000 yields 0, and
a further 50 payment against the zero-balance loan stays at 0. -/
theorem C2_recordPayment_effect :
    (∀ (b : Borrower) (pb : PaymentBody) (now : JSDate) (r : Borrower),
        recordPayment b pb now = Except.ok r →
        r.payments = b.payments ++ [mkPaymentRecord pb now] ∧
        r.remainingBalance =
          max (b.loanAmount
            + mutationInterest b.loanAmount b.interestRate b.term b.interestType
            + b.totalPenalties - (totalPaymentsOf b.payments + numOrZero pb.amount)) 0) ∧
    (∃ r1, recordPayment loanBal1000 (payBody 1000) sampleDate = Except.ok r1 ∧
        r1.remainingBalance = 0 ∧
        ∃ r2, recordPayment r1 (payBody 50) sampleDate = Except.ok r2 ∧
          r2.remainingBalance = 0) := by
  have G : ∀ (b : Borrower) (pb : PaymentBody) (now : JSDate) (r : Borrower),
      recordPayment b pb now = Except.ok r →
      r.payments = b.payments ++ [mkPaymentRecord pb now] ∧
      r.remainingBalance =
        max (b.loanAmount
          + mutationInterest b.loanAmount b.interestRate b.term b.interestType
          + b.totalPenalties - (totalPaymentsOf b.payments + numOrZero pb.amount)) 0 := by
    intro b pb now r h
    obtain ⟨-, -, hr⟩ := recordPayment_ok_inv b pb now r h
    have F := applyPayment_fixed b (mkPaymentRecord pb now) pb.updateDueDate
    rw [hr]
    refine ⟨F.1, ?_⟩
    rw [F.2.1, paymentNewBalance, mkPaymentRecord_amount]
  refine ⟨G, ?_⟩
  have e1 : recordPayment loanBal1000 (payBody 1000) sampleDate
      = .ok (applyPayment loanBal1000 (mkPaymentRecord (payBody 1000) sampleDate) false) :=
    recordPayment_eq_ok loanBal1000 (payBody 1000) sampleDate
      (by norm_num [payBody, numOrZero]) (by norm_num [payBody, numOrZero])
  refine ⟨_, e1, ?_, ?_⟩
  · rw [(G loanBal1000 (payBody 1000) sampleDate _ e1).2]
    rw [max_eq_right]
    norm_num [loanBal1000, createBorrower, mutationInterest, totalPaymentsOf, numOrZero, payBody]
  · have e2 : recordPayment
        (applyPayment loanBal1000 (mkPaymentRecord (payBody 1000) sampleDate) false)
        (payBody 50) sampleDate
        = .ok (applyPayment
            (applyPayment loanBal1000 (mkPaymentRecord (payBody 1000) sampleDate) false)
            (mkPaymentRecord (payBody 50) sampleDate) false) :=
      recordPayment_eq_ok _ (payBody 50) sampleDate
        (by norm_num [payBody, numOrZero]) (by norm_num [payBody, numOrZero])
    refine ⟨_, e2, ?_⟩
    rw [(G _ (payBody 50) sampleDate _ e2).2]
    have F := applyPayment_fixed loanBal1000 (mkPaymentRecord (payBody 1000) sampleDate) false
    rw [F.2.2.2.2.1, F.2.2.2.2.2.1, F.2.2.2.2.2.2.1, F.2.2.2.2.2.2.2.1, F.2.2.2.1, F.1,
      totalPaymentsOf_append, mkPaymentRecord_amount]
    rw [max_eq_right]
    norm_num [loanBal1000, createBorrower, mutationInterest, totalPaymentsOf, numOrZero, payBody]

/-- Witness for C2: the accepted 1000 payment appends exactly its
record. -/
theorem C2_witness :
    (applyPayment loanBal1000 (mkPaymentRecord (payBody 1000) sampleDate) false).payments
      = loanBal1000.payments ++ [mkPaymentRecord (payBody 1000) sampleDate] :=
  (C2_recordPayment_effect.1 loanBal1000 (payBody 1000) sampleDate _
    (recordPayment_eq_ok loanBal1000 (payBody 1000) sampleDate
      (by norm_num [payBody, numOrZero]) (by norm_num [payBody, numOrZero]))).1

/-- C5: a payment is accepted iff its amount is a (finite) number with
`0 < amount <= 999999999`; the amounts -5, 0, NaN and 2000000000 are each
rejected with a validation error (NaN is coerced to 0 by `Number(x) || 0`
and falls to the must-be-greater-than-zero branch), and a rejected
request returns only the error, so no loan state is stored. -/
theorem C5_payment_validation :
    (∀ (b : Borrower) (pb : PaymentBody) (now : JSDate),
        (∃ r, recordPayment b pb now = Except.ok r) ↔
          (∃ q, pb.amount = JSNum.fin q ∧ 0 < q ∧ q ≤ 999999999)) ∧
    (∀ (b : Borrower) (now : JSDate) (d : Option JSDate) (n : Option String) (u : Bool),
        recordPayment b ⟨JSNum.fin (-5), d, n, u⟩ now
          = Except.error "Payment amount must be greater than zero.") ∧
    (∀ (b : Borrower) (now : JSDate) (d : Option JSDate) (n : Option String) (u : Bool),
        recordPayment b ⟨JSNum.fin 0, d, n, u⟩ now
          = Except.error "Payment amount must be greater than zero.") ∧
    (∀ (b : Borrower) (now : JSDate) (d : Option JSDate) (n : Option String) (u : Bool),
        recordPayment b ⟨JSNum.nan, d, n, u⟩ now
          = Except.error "Payment amount must be greater than zero.") ∧
    (∀ (b : Borrower) (now : JSDate) (d : Option JSDate) (n : Option String) (u : Bool),
        recordPayment b ⟨JSNum.fin 2000000000, d, n, u⟩ now
          = Except.error "Payment amount is too large.") := by
  refine ⟨?_, ?_, ?_, ?_, ?_⟩
  · intro b pb now
    constructor
    · rintro ⟨r, h⟩
      obtain ⟨h1, h2, -⟩ := recordPayment_ok_inv b pb now r h
      cases ha : pb.amount with
      | nan =>
        rw [ha] at h1
        norm_num [numOrZero] at h1
      | fin q =>
        rw [ha] at h1 h2
        exact ⟨q, rfl, h1, h2⟩
    · rintro ⟨q, hq, h1, h2⟩
      exact ⟨_, recordPayment_eq_ok b pb now (by rw [hq]; exact h1) (by rw [hq]; exact h2)⟩
  · intro b now d n u
    rw [recordPayment, if_pos (Or.inr (by norm_num [mkPaymentRecord, numOrZero]))]
  · intro b now d n u
    rw [recordPayment, if_pos (Or.inl (by norm_num [mkPaymentRecord, numOrZero]))]
  · intro b now d n u
    rw [recordPayment, if_pos (Or.inl (by norm_num [mkPaymentRecord, numOrZero]))]
  · intro b now d n u
    rw [recordPayment, if_neg (by norm_num [mkPaymentRecord, numOrZero]),
      if_pos (by norm_num [mkPaymentRecord, numOrZero])]

/-- Witness for C5: the -5 payment is rejected on a concrete loan. -/
theorem C5_witness :
    recordPayment loanBal1000 ⟨JSNum.fin (-5), none, none, false⟩ sampleDate
      = Except.error "Payment amount must be greater than zero." :=
  C5_payment_validation.2.1 loanBal1000 sampleDate none none false

/-- C6: when the advance option is requested on a loan with positive
`monthlyPayment` and a due date set, an accepted payment advances the due
date by `monthsCovered = floor(amount / monthlyPayment)` calendar months
and records the `lastAdvancePayment` snapshot when `monthsCovered >= 1`,
and leaves both untouched when `monthsCovered = 0`; concretely 450
against an installment of 200 advances by 2 months, while 150 moves
nothing. -/
theorem C6_due_date_rollforward :
    (∀ (b : Borrower) (pb : PaymentBody) (now : JSDate) (r : Borrower) (d : JSDate),
        recordPayment b pb now = Except.ok r →
        pb.updateDueDate = true → 0 < b.monthlyPayment → b.nextDueDate = some d →
        (1 ≤ ⌊numOrZero pb.amount / b.monthlyPayment⌋ →
            r.nextDueDate = some (d.addMonths ⌊numOrZero pb.amount / b.monthlyPayment⌋) ∧
            r.lastAdvancePayment = some
              { amount := numOrZero pb.amount
                monthsCovered := ⌊numOrZero pb.amount / b.monthlyPayment⌋
                date := (mkPaymentRecord pb now).date
                originalDueDate := d
                newDueDate := d.addMonths ⌊numOrZero pb.amount / b.monthlyPayment⌋ }) ∧
        (⌊numOrZero pb.amount / b.monthlyPayment⌋ = 0 →
            r.nextDueDate = b.nextDueDate ∧ r.lastAdvancePayment = b.lastAdvancePayment)) ∧
    (∃ r, recordPayment loanDue200 (payAdvanceBody 450) sampleDate = Except.ok r ∧
        r.nextDueDate = some (dueDate0.addMonths 2) ∧
        Option.map AdvancePaymentInfo.monthsCovered r.lastAdvancePayment = some 2) ∧
    (∃ r, recordPayment loanDue200 (payAdvanceBody 150) sampleDate = Except.ok r ∧
        r.nextDueDate = some dueDate0 ∧ r.lastAdvancePayment = none) := by
  refine ⟨?_, ?_, ?_⟩
  · intro b pb now r d hok hu hmp hnd
    obtain ⟨h1, -, hr⟩ := recordPayment_ok_inv b pb now r hok
    rw [hr, hu]
    constructor
    · intro hmc
      exact applyPayment_advance b (mkPaymentRecord pb now) d (ne_of_gt hmp) hnd h1 hmc
    · intro hmc
      exact applyPayment_noAdvance b (mkPaymentRecord pb now) true hmc
  · have e450 : recordPayment loanDue200 (payAdvanceBody 450) sampleDate
        = .ok (applyPayment loanDue200 (mkPaymentRecord (payAdvanceBody 450) sampleDate) true) :=
      recordPayment_eq_ok loanDue200 (payAdvanceBody 450) sampleDate
        (by norm_num [payAdvanceBody, numOrZero]) (by norm_num [payAdvanceBody, numOrZero])
    have hfloor : ⌊(mkPaymentRecord (payAdvanceBody 450) sampleDate).amount
        / loanDue200.monthlyPayment⌋ = 2 := by
      show ⌊(450 : ℚ) / 200⌋ = 2
      rw [Int.floor_eq_iff]
      norm_num
    obtain ⟨hn, hl⟩ := applyPayment_advance loanDue200
      (mkPaymentRecord (payAdvanceBody 450) sampleDate) dueDate0
      (by norm_num [loanDue200, createBorrower]) rfl
      (by norm_num [mkPaymentRecord, payAdvanceBody, numOrZero]) (by rw [hfloor]; norm_num)
    refine ⟨_, e450, ?_, ?_⟩
    · rw [hn, hfloor]
    · rw [hl, hfloor]
      rfl
  · have e150 : recordPayment loanDue200 (payAdvanceBody 150) sampleDate
        = .ok (applyPayment loanDue200 (mkPaymentRecord (payAdvanceBody 150) sampleDate) true) :=
      recordPayment_eq_ok loanDue200 (payAdvanceBody 150) sampleDate
        (by norm_num [payAdvanceBody, numOrZero]) (by norm_num [payAdvanceBody, numOrZero])
    have hfloor : ⌊(mkPaymentRecord (payAdvanceBody 150) sampleDate).amount
        / loanDue200.monthlyPayment⌋ = 0 := by
      show ⌊(150 : ℚ) / 200⌋ = 0
      rw [Int.floor_eq_iff]
      norm_num
    obtain ⟨hn, hl⟩ := applyPayment_noAdvance loanDue200
      (mkPaymentRecord (payAdvanceBody 150) sampleDate) true hfloor
    exact ⟨_, e150, hn, hl⟩

/-- Witness for C6: the 150 partial payment moves neither the due date
nor the advance snapshot. -/
theorem C6_witness :
    (applyPayment loanDue200 (mkPaymentRecord (payAdvanceBody 150) sampleDate) true).nextDueDate
        = loanDue200.nextDueDate ∧
    (applyPayment loanDue200 (mkPaymentRecord (payAdvanceBody 150) sampleDate)
        true).lastAdvancePayment = loanDue200.lastAdvancePayment :=
  (C6_due_date_rollforward.1 loanDue200 (payAdvanceBody 150) sampleDate _ dueDate0
      (recordPayment_eq_ok loanDue200 (payAdvanceBody 150) sampleDate
        (by norm_num [payAdvanceBody, numOrZero]) (by norm_num [payAdvanceBody, numOrZero]))
      rfl (by norm_num [loanDue200, createBorrower]) rfl).2
    (by show ⌊(150 : ℚ) / 200⌋ = 0
        rw [Int.floor_eq_iff]
        norm_num)

/-- C7: recordPenalty validates nothing (zero and negative amounts are
accepted as-is), appends one record with server-assigned date and reason
defaulting to "Penalty", sets `totalPenalties` to the existing list sum
plus the amount, and stores `max(raw balance, 0)` with the floor applied
only at the store boundary; penalties of 100 then 50 on a penalty-free
loan give `totalPenalties = 150` and the list `[100, 50]`. -/
theorem C7_recordPenalty_no_validation :
    (∀ (b : Borrower) (pb : PenaltyBody) (now : JSDate),
        (recordPenalty b pb now).penalties = b.penalties ++ [mkPenaltyRecord pb now] ∧
        (recordPenalty b pb now).totalPenalties
          = totalPenaltiesOf b.penalties + numOrZero pb.amount ∧
        (recordPenalty b pb now).remainingBalance =
          max (penaltyRawBalance b (totalPenaltiesOf b.penalties + numOrZero pb.amount)) 0 ∧
        (mkPenaltyRecord pb now).date = now ∧
        (∀ q, pb.amount = JSNum.fin q → (mkPenaltyRecord pb now).amount = q) ∧
        (pb.reason = none → (mkPenaltyRecord pb now).reason = "Penalty")) ∧
    ((recordPenalty loanBal1000 ⟨JSNum.fin (-20), none⟩ sampleDate).totalPenalties = -20) ∧
    ((recordPenalty loanBal1000 ⟨JSNum.fin 0, none⟩ sampleDate).penalties.length = 1) ∧
    ((recordPenalty (recordPenalty loanBal1000 ⟨JSNum.fin 100, none⟩ sampleDate)
        ⟨JSNum.fin 50, none⟩ sampleDate).totalPenalties = 150) ∧
    ((recordPenalty (recordPenalty loanBal1000 ⟨JSNum.fin 100, none⟩ sampleDate)
        ⟨JSNum.fin 50, none⟩ sampleDate).penalties.map PenaltyRecord.amount = [100, 50]) := by
  have f1 := recordPenalty_fields loanBal1000 ⟨JSNum.fin 100, none⟩ sampleDate
  have f2 := recordPenalty_fields (recordPenalty loanBal1000 ⟨JSNum.fin 100, none⟩ sampleDate)
    ⟨JSNum.fin 50, none⟩ sampleDate
  refine ⟨?_, ?_, ?_, ?_, ?_⟩
  · intro b pb now
    have F := recordPenalty_fields b pb now
    refine ⟨F.1, F.2.1, F.2.2.1, rfl, ?_, ?_⟩
    · intro q hq
      simp [mkPenaltyRecord, numOrZero, hq]
    · intro h
      simp [mkPenaltyRecord, orDefault, h]
  · rw [(recordPenalty_fields loanBal1000 ⟨JSNum.fin (-20), none⟩ sampleDate).2.1]
    norm_num [loanBal1000, createBorrower, totalPenaltiesOf, numOrZero]
  · rw [(recordPenalty_fields loanBal1000 ⟨JSNum.fin 0, none⟩ sampleDate).1]
    simp [loanBal1000, createBorrower]
  · rw [f2.2.1, f1.1, totalPenaltiesOf_append]
    norm_num [loanBal1000, createBorrower, totalPenaltiesOf, numOrZero, mkPenaltyRecord]
  · rw [f2.1, f1.1]
    simp [loanBal1000, createBorrower, mkPenaltyRecord, numOrZero]

/-- Witness for C7: a concrete penalty record keeps its amount and gets
the default reason. -/
theorem C7_witness :
    (mkPenaltyRecord ⟨JSNum.fin 75, none⟩ sampleDate).amount = 75 ∧
    (mkPenaltyRecord ⟨JSNum.fin 75, none⟩ sampleDate).reason = "Penalty" :=
  ⟨(C7_recordPenalty_no_validation.1 loanBal1000 ⟨JSNum.fin 75, none⟩ sampleDate).2.2.2.2.1
      75 rfl,
    (C7_recordPenalty_no_validation.1 loanBal1000 ⟨JSNum.fin 75, none⟩ sampleDate).2.2.2.2.2
      rfl⟩

/-- An update body supplying only a new loan amount. -/
def updLoan800 : UpdateBody := { emptyUpdate with loanAmount := some 800 }

/-- C8: the borrower-update path merges only the supplied fields over the
current scalars, recomputes `remainingBalance` as `max(merged principal +
merged interest + totalPenalties - totalPayments, 0)` from the merged
terms without touching the payment or penalty history, and an update with
no changed fields is the identity. -/
theorem C8_recomputeOnTermEdit :
    (∀ (b : Borrower) (u : UpdateBody),
        (borrowerUpdate b u).payments = b.payments ∧
        (borrowerUpdate b u).penalties = b.penalties ∧
        (borrowerUpdate b u).loanAmount = u.loanAmount.getD b.loanAmount ∧
        (borrowerUpdate b u).term = u.term.getD b.term ∧
        (borrowerUpdate b u).interestRate = u.interestRate.getD b.interestRate ∧
        (borrowerUpdate b u).interestType = strMerge u.interestType b.interestType ∧
        (borrowerUpdate b u).monthlyPayment = u.monthlyPayment.getD b.monthlyPayment) ∧
    (∀ (b : Borrower) (u : UpdateBody), recomputeTriggered u = true →
        (borrowerUpdate b u).remainingBalance =
          max ((u.loanAmount.getD b.loanAmount)
            + mutationInterest (u.loanAmount.getD b.loanAmount)
                (u.interestRate.getD b.interestRate)
                (u.term.getD b.term) (strMerge u.interestType b.interestType)
            + b.totalPenalties - totalPaymentsOf b.payments) 0) ∧
    (∀ b : Borrower, borrowerUpdate b emptyUpdate = b) := by
  refine ⟨?_, borrowerUpdate_balance_triggered, borrowerUpdate_empty⟩
  intro b u
  have F := borrowerUpdate_fields b u
  exact ⟨F.1, F.2.1, F.2.2.2.1, F.2.2.2.2.1, F.2.2.2.2.2.1, F.2.2.2.2.2.2.1,
    F.2.2.2.2.2.2.2.1⟩

/-- Witness for C8: a triggered recompute on a concrete loan, and the
empty-update round trip. -/
theorem C8_witness :
    (borrowerUpdate loanBal1000 updLoan800).remainingBalance
      = max ((updLoan800.loanAmount.getD loanBal1000.loanAmount)
        + mutationInterest (updLoan800.loanAmount.getD loanBal1000.loanAmount)
            (updLoan800.interestRate.getD loanBal1000.interestRate)
            (updLoan800.term.getD loanBal1000.term)
            (strMerge updLoan800.interestType loanBal1000.interestType)
        + loanBal1000.totalPenalties - totalPaymentsOf loanBal1000.payments) 0 ∧
    borrowerUpdate loanBal1000 emptyUpdate = loanBal1000 :=
  ⟨C8_recomputeOnTermEdit.2.1 loanBal1000 updLoan800 rfl,
    C8_recomputeOnTermEdit.2.2 loanBal1000⟩

/-- C9: the scalar `totalPenalties` always equals the sum of the penalty
list: it is created as 0 with an empty list, recordPenalty sets it to the
list sum plus the appended amount, and recordPayment and the
borrower-update path change neither the field nor the list. -/
theorem C9_totalPenalties_matches_list :
    (∀ (name contact address : String) (la t r : ℚ) (ty : String) (nd : Option JSDate)
        (mp : ℚ) (now : JSDate),
        (createBorrower name contact address la t r ty nd mp now).totalPenalties = 0 ∧
        (createBorrower name contact address la t r ty nd mp now).penalties = [] ∧
        (createBorrower name contact address la t r ty nd mp now).totalPenalties
          = totalPenaltiesOf (createBorrower name contact address la t r ty nd mp now).penalties) ∧
    (∀ (b : Borrower) (pb : PaymentBody) (now : JSDate) (r : Borrower),
        recordPayment b pb now = Except.ok r →
        r.totalPenalties = b.totalPenalties ∧ r.penalties = b.penalties) ∧
    (∀ (b : Borrower) (pb : PenaltyBody) (now : JSDate),
        (recordPenalty b pb now).totalPenalties
          = totalPenaltiesOf (recordPenalty b pb now).penalties) ∧
    (∀ (b : Borrower) (u : UpdateBody),
        (borrowerUpdate b u).totalPenalties = b.totalPenalties ∧
        (borrowerUpdate b u).penalties = b.penalties) := by
  refine ⟨?_, ?_, ?_, ?_⟩
  · intro name contact address la t r ty nd mp now
    exact ⟨rfl, rfl, rfl⟩
  · intro b pb now r h
    obtain ⟨-, -, hr⟩ := recordPayment_ok_inv b pb now r h
    have F := applyPayment_fixed b (mkPaymentRecord pb now) pb.updateDueDate
    rw [hr]
    exact ⟨F.2.2.2.1, F.2.2.1⟩
  · intro b pb now
    have F := recordPenalty_fields b pb now
    rw [F.2.1, F.1, totalPenaltiesOf_append]
    rfl
  · intro b u
    have F := borrowerUpdate_fields b u
    exact ⟨F.2.2.1, F.2.1⟩

/-- Witness for C9: an accepted payment on a concrete loan leaves the
penalty total untouched. -/
theorem C9_witness :
    (applyPayment loanBal1000 (mkPaymentRecord (payBody 1000) sampleDate) false).totalPenalties
      = loanBal1000.totalPenalties :=
  (C9_totalPenalties_matches_list.2.1 loanBal1000 (payBody 1000) sampleDate _
    (recordPayment_eq_ok loanBal1000 (payBody 1000) sampleDate
      (by norm_num [payBody, numOrZero]) (by norm_num [payBody, numOrZero]))).1

/-- C10: in the three mutation paths the recomputed interest is 0
whenever `interestRate` or `term` is 0, so the stored balance is
`max(principal + totalPenalties - totalPayments, 0)`; the
principal-returning degenerate branch of the creation-time formula never
reaches a mutation-path balance. -/
theorem C10_zero_terms_interest :
    (∀ (la r t : ℚ) (ty : String), r = 0 ∨ t = 0 → mutationInterest la r t ty = 0) ∧
    (∀ (b : Borrower) (pb : PaymentBody) (now : JSDate) (rb : Borrower),
        recordPayment b pb now = Except.ok rb → b.interestRate = 0 ∨ b.term = 0 →
        rb.remainingBalance =
          max (b.loanAmount + b.totalPenalties
            - (totalPaymentsOf b.payments + numOrZero pb.amount)) 0) ∧
    (∀ (b : Borrower) (pb : PenaltyBody) (now : JSDate), b.interestRate = 0 ∨ b.term = 0 →
        (recordPenalty b pb now).remainingBalance =
          max (b.loanAmount + (totalPenaltiesOf b.penalties + numOrZero pb.amount)
            - totalPaymentsOf b.payments) 0) ∧
    (∀ (b : Borrower) (u : UpdateBody), recomputeTriggered u = true →
        u.interestRate.getD b.interestRate = 0 ∨ u.term.getD b.term = 0 →
        (borrowerUpdate b u).remainingBalance =
          max ((u.loanAmount.getD b.loanAmount) + b.totalPenalties
            - totalPaymentsOf b.payments) 0) := by
  have hz : ∀ (la r t : ℚ) (ty : String), r = 0 ∨ t = 0 → mutationInterest la r t ty = 0 := by
    rintro la r t ty (h | h) <;> simp [mutationInterest, h]
  refine ⟨hz, ?_, ?_, ?_⟩
  · intro b pb now rb h hzero
    obtain ⟨-, -, hr⟩ := recordPayment_ok_inv b pb now rb h
    have F := applyPayment_fixed b (mkPaymentRecord pb now) pb.updateDueDate
    rw [hr, F.2.1, paymentNewBalance, mkPaymentRecord_amount,
      hz b.loanAmount b.interestRate b.term b.interestType hzero]
    congr 1
    ring
  · intro b pb now hzero
    rw [(recordPenalty_fields b pb now).2.2.1, penaltyRawBalance,
      hz b.loanAmount b.interestRate b.term b.interestType hzero]
    congr 1
    ring
  · intro b u ht hzero
    rw [borrowerUpdate_balance_triggered b u ht, hz _ _ _ _ hzero]
    congr 1
    ring

/-- Witness for C10: a zero interest rate yields zero mutation-path
interest. -/
theorem C10_witness : mutationInterest 7 0 5 "monthly" = 0 :=
  C10_zero_terms_interest.1 7 0 5 "monthly" (Or.inl rfl)

end LoanApp
